import Mathlib

/-!
Shallow embedding of `app.py` (Streamlit Emergency Locator and Dispatch
Alerter).  External services (geocoder, feature query, OpenRouteService,
Twilio) are modelled as parameters bundled in a `World`; the observable
behaviour of a run is an ordered trace of UI/side-effect events.
-/

namespace DCN

/-- A coordinate in (latitude, longitude) order, as produced by
`ox.geocode` and used throughout `app.py`. -/
abbrev Coord := ℚ × ℚ

/-- The five environment credentials read at module load
(lines 28-32 of app.py); `none` models an unset variable. -/
structure Env where
  twilio_account_sid : Option String
  twilio_auth_token : Option String
  twilio_phone_number : Option String
  verified_recipient_number : Option String
  ors_api_key : Option String
  deriving DecidableEq

/-- Python truthiness of an optional environment string: unset and the
empty string are falsy. -/
def truthy : Option String → Bool
  | none => false
  | some s => !(s == "")

/-- Consecutive edge pairs of a closed ring (last vertex connects back to
the first), vertices in (x, y) order. -/
def ringEdges (ring : List (ℚ × ℚ)) : List ((ℚ × ℚ) × (ℚ × ℚ)) :=
  ring.zip (ring.drop 1 ++ ring.take 1)

/-- Sum of cross terms x_i * y_j - x_j * y_i over the closed ring
(twice the signed area), as in the shoelace centroid formula shapely
uses for `geom.centroid`. -/
def ringCrossSum (ring : List (ℚ × ℚ)) : ℚ :=
  (ringEdges ring).foldl (fun s e => s + (e.1.1 * e.2.2 - e.2.1 * e.1.2)) 0

/-- Shoelace numerator for the x coordinate of a polygon centroid. -/
def ringCxSum (ring : List (ℚ × ℚ)) : ℚ :=
  (ringEdges ring).foldl
    (fun s e => s + (e.1.1 + e.2.1) * (e.1.1 * e.2.2 - e.2.1 * e.1.2)) 0

/-- Shoelace numerator for the y coordinate of a polygon centroid. -/
def ringCySum (ring : List (ℚ × ℚ)) : ℚ :=
  (ringEdges ring).foldl
    (fun s e => s + (e.1.2 + e.2.2) * (e.1.1 * e.2.2 - e.2.1 * e.1.2)) 0

/-- Centroid (x, y) of a polygon given by its exterior ring. -/
def polyCentroid (ring : List (ℚ × ℚ)) : ℚ × ℚ :=
  (ringCxSum ring / (3 * ringCrossSum ring),
   ringCySum ring / (3 * ringCrossSum ring))

/-- Centroid (x, y) of a multi-polygon, the area-weighted combination of
its member polygons (each given by its exterior ring). -/
def multiPolygonCentroid (polys : List (List (ℚ × ℚ))) : ℚ × ℚ :=
  ((polys.map ringCxSum).sum / (3 * (polys.map ringCrossSum).sum),
   (polys.map ringCySum).sum / (3 * (polys.map ringCrossSum).sum))

/-- Geometry attached to a feature row: a point carries shapely (x, y)
coordinates, an area carries its ring(s); any other geometry type is
recorded only by its type name. -/
inductive Geometry where
  | point (x y : ℚ)
  | polygon (ring : List (ℚ × ℚ))
  | multiPolygon (polys : List (List (ℚ × ℚ)))
  | otherGeom (geomType : String)
  deriving DecidableEq

/-- Representative point, in (latitude, longitude) order, that a geometry
contributes to the candidate list: a point contributes its own
coordinates, a polygon or multi-polygon its centroid, anything else is
skipped (lines 110-116 of app.py). -/
def Geometry.repPoint : Geometry → Option Coord
  | .point x y => some (y, x)
  | .polygon ring => some ((polyCentroid ring).2, (polyCentroid ring).1)
  | .multiPolygon polys =>
      some ((multiPolygonCentroid polys).2, (multiPolygonCentroid polys).1)
  | .otherGeom _ => none

/-- One row of the feature query result: its geometry and its optional
name attribute. -/
structure Row where
  geometry : Geometry
  name : Option String
  deriving DecidableEq

/-- A pandas cell value of the `name` column: a stored string, or NaN
for a missing value in an existing column. -/
inductive PdValue where
  | pdStr (s : String)
  | pdNaN
  deriving DecidableEq

/-- Rendering of a cell value in an f-string or str() call: the float
NaN prints as "nan". -/
def pdFormat : PdValue → String
  | .pdStr s => s
  | .pdNaN => "nan"

/-- Whether the feature result frame has a `name` column: the frame has
one column per tag key present on at least one returned feature, so the
column exists exactly when some feature has a name. -/
def hasNameColumn (rows : List Row) : Bool :=
  rows.any (fun r => r.name.isSome)

/-- Line 109's `row.get("name", default)` under pandas Series
semantics: when the frame has a name column, `get` returns the stored
cell — the feature's name, or NaN when that feature has none — and the
synthesized "Unnamed <category>" default is returned only when the
whole frame lacks the column. -/
def rowGetName (hasCol : Bool) (category : String) (r : Row) : PdValue :=
  if hasCol then
    match r.name with
    | some s => PdValue.pdStr s
    | none => PdValue.pdNaN
  else PdValue.pdStr ("Unnamed " ++ category)

/-- One iteration of the extraction loop (lines 107-116 of app.py):
appends the representative coordinate and the name cell, or skips the
row. -/
def extractStep (hasCol : Bool) (category : String)
    (acc : List Coord × List PdValue) (r : Row) :
    List Coord × List PdValue :=
  match r.geometry with
  | .point x y => (acc.1 ++ [(y, x)], acc.2 ++ [rowGetName hasCol category r])
  | .polygon ring =>
      (acc.1 ++ [((polyCentroid ring).2, (polyCentroid ring).1)],
       acc.2 ++ [rowGetName hasCol category r])
  | .multiPolygon polys =>
      (acc.1 ++ [((multiPolygonCentroid polys).2, (multiPolygonCentroid polys).1)],
       acc.2 ++ [rowGetName hasCol category r])
  | .otherGeom _ => acc

/-- The extraction loop over the whole result set: builds
`service_coords` and `service_names`, reading name cells under the
frame's actual column set. -/
def extractServices (category : String) (rows : List Row) :
    List Coord × List PdValue :=
  rows.foldl (extractStep (hasNameColumn rows) category) ([], [])

/-- The candidate a row contributes, per the representative-point rule:
its representative point paired with its name cell, or nothing when the
geometry type is skipped. -/
def repCandidate (hasCol : Bool) (category : String) (r : Row) :
    Option (Coord × PdValue) :=
  (r.geometry.repPoint).map (fun c => (c, rowGetName hasCol category r))

/-- Python `min` over a list of numbers: `none` on the empty list (where
Python raises ValueError), otherwise the least element. -/
def pyMin : List ℚ → Option ℚ
  | [] => none
  | x :: xs => some (xs.foldl min x)

/-- Python `list.index`: index of the first occurrence of `x`. -/
def pyIndexOf (x : ℚ) : List ℚ → Nat
  | [] => 0
  | y :: ys => if y = x then 0 else pyIndexOf x ys + 1

/-- Scalar summary of an OpenRouteService response. -/
structure ORSSummary where
  duration : ℚ
  distance : ℚ
  deriving DecidableEq

/-- An OpenRouteService directions response: the geometry coordinates in
the native (longitude, latitude) order, plus the summary. -/
structure ORSRoute where
  coordinates : List (ℚ × ℚ)
  summary : ORSSummary
  deriving DecidableEq

/-- The TwiML document built by `make_emergency_call`: a single `say`
verb with a message, a voice and a language. -/
structure VoiceDoc where
  message : String
  voice : String
  language : String
  deriving DecidableEq

/-- The request handed to `client.calls.create` (plus the credentials the
client was constructed with). -/
structure CallRequest where
  accountSid : String
  authToken : String
  twiml : VoiceDoc
  toNumber : String
  fromNumber : String
  deriving DecidableEq

/-- Observable events of one pipeline run, in order. -/
inductive Ev where
  | errorShown (s : String)
  | warningShown (s : String)
  | infoShown (s : String)
  | successShown (s : String)
  | mapRendered (center : Coord) (sourceMarker : Coord)
      (facilityMarker : Coord) (facilityName : String)
      (routeLine : List Coord)
  | routeInfoShown (facilityName : String) (duration : ℚ) (distance : ℚ)
  | twilioCallCreated (req : CallRequest)
  | exceptionRaised (s : String)
  deriving DecidableEq

/-- True exactly on the call-creation event. -/
def Ev.isCall : Ev → Bool
  | .twilioCallCreated _ => true
  | _ => false

/-- True exactly on the map-render event. -/
def Ev.isRender : Ev → Bool
  | .mapRendered _ _ _ _ _ => true
  | _ => false

/-- The call requests dispatched in a trace, in order. -/
def callsOf (t : List Ev) : List CallRequest :=
  t.filterMap (fun e => match e with
    | .twilioCallCreated r => some r
    | _ => none)

/-- Holds when no call-creation event occurs before the first map-render
event of the trace. -/
def noCallBeforeRender (t : List Ev) : Bool :=
  (t.takeWhile (fun e => ! e.isRender)).all (fun e => ! e.isCall)

/-- Error message of line 95 of app.py. -/
def geocodeErrorMsg (source_name e : String) : String :=
  "Could not find location: " ++ source_name ++
  ". Please try a more specific address or landmark. Error: " ++ e

/-- Error message of line 102 of app.py. -/
def noServicesMsg (label : String) : String :=
  "No " ++ label ++ " services found within 5km."

/-- Error message of line 64 of app.py. -/
def orsKeyMissingMsg : String :=
  "OpenRouteService API key is not configured in Vercel environment variables."

/-- Error message of line 79 of app.py. -/
def orsExceptionMsg (e : String) : String :=
  "OpenRouteService Exception: " ++ e

/-- Warning message of line 43 of app.py. -/
def twilioSkipMsg : String :=
  "Twilio credentials are not fully configured in Vercel environment variables. Skipping call."

/-- Error message of line 58 of app.py. -/
def twilioErrorMsg (e : String) : String :=
  "Twilio Call Exception: " ++ e

/-- Warning message of line 59 of app.py. -/
def twilioCheckMsg : String :=
  "Please check your Twilio credentials and phone numbers in Vercel settings."

/-- Info message of line 56 of app.py. -/
def callInitiatedMsg (toNum sid : String) : String :=
  "Initiating emergency call to " ++ toNum ++ "... (Call SID: " ++ sid ++ ")"

/-- Success message of line 124 of app.py. -/
def foundNearestMsg (nm : String) : String :=
  "Found nearest service: " ++ nm

/-- The three emergency categories of the selectbox. -/
inductive EmergencyType where
  | Medical
  | Fire
  | Police
  deriving DecidableEq

/-- Display label of a category, as the Python string. -/
def EmergencyType.label : EmergencyType → String
  | .Medical => "Medical"
  | .Fire => "Fire"
  | .Police => "Police"

/-- The `tag_mapping` dictionary of lines 84-88 of app.py. -/
def tag_mapping : EmergencyType → String × String
  | .Medical => ("amenity", "hospital")
  | .Fire => ("amenity", "fire_station")
  | .Police => ("amenity", "police")

/-- The `icon_map` dictionary of line 144 of app.py. -/
def icon_map : EmergencyType → String
  | .Medical => "hospital"
  | .Fire => "fire-extinguisher"
  | .Police => "building-shield"

/-- Responses of the external services consumed during one run:
the geocoder result, the feature query result, the geodesic distance
function, the OpenRouteService directions call and the Twilio
call-creation call (returning a call SID on success). -/
structure World where
  geocode : Except String Coord
  features : List Row
  geodesicMeters : Coord → Coord → ℚ
  directions : List (ℚ × ℚ) → Except String ORSRoute
  twilioCreate : CallRequest → Except String String

/-- All four Twilio credentials are truthy (line 42 of app.py). -/
def credsOk (env : Env) : Bool :=
  truthy env.twilio_account_sid && truthy env.twilio_auth_token &&
  truthy env.twilio_phone_number && truthy env.verified_recipient_number

/-- The fixed call request built by `make_emergency_call` from the
environment: message, voice and recipient are configuration constants. -/
def buildCallRequest (env : Env) : CallRequest :=
  ⟨env.twilio_account_sid.getD "",
   env.twilio_auth_token.getD "",
   ⟨"emergency situation, please help.", "alice", "en-US"⟩,
   env.verified_recipient_number.getD "",
   env.twilio_phone_number.getD ""⟩

/-- `make_emergency_call` (lines 39-59 of app.py): skips with a warning
when any credential is missing; otherwise attempts the call, reporting
success with an info message and any exception with an error plus a
warning. -/
def make_emergency_call (env : Env)
    (twilioCreate : CallRequest → Except String String) : List Ev :=
  if credsOk env then
    match twilioCreate (buildCallRequest env) with
    | .ok sid =>
        [.twilioCallCreated (buildCallRequest env),
         .infoShown (callInitiatedMsg (buildCallRequest env).toNumber sid)]
    | .error e =>
        [.twilioCallCreated (buildCallRequest env),
         .errorShown (twilioErrorMsg e),
         .warningShown twilioCheckMsg]
  else
    [.warningShown twilioSkipMsg]

/-- `get_ors_route_coords` (lines 61-80 of app.py): errors out with an
empty result when the key is falsy or the service raises; otherwise
sends the (longitude, latitude) pair list and returns the response
coordinates swapped to (latitude, longitude) plus the summary
scalars. -/
def get_ors_route_coords (start endp : Coord) (api_key : Option String)
    (directions : List (ℚ × ℚ) → Except String ORSRoute) :
    List Ev × (List Coord × Option ℚ × Option ℚ) :=
  if truthy api_key then
    match directions [(start.2, start.1), (endp.2, endp.1)] with
    | .ok route =>
        ([],
         (route.coordinates.map (fun p => (p.2, p.1)),
          some route.summary.duration, some route.summary.distance))
    | .error e => ([.errorShown (orsExceptionMsg e)], ([], none, none))
  else
    ([.errorShown orsKeyMissingMsg], ([], none, none))

/-- `find_and_map_route` (lines 82-164 of app.py) as a trace of events:
geocode, feature query, extraction, nearest selection, routing, map
rendering, route info, emergency call.  A failed stage short-circuits
the rest.  When every feature row is skipped by extraction, Python
raises ValueError on `min` of an empty sequence. -/
def find_and_map_route (source_name : String) (etype : EmergencyType)
    (env : Env) (w : World) : List Ev :=
  match w.geocode with
  | .error e => [.errorShown (geocodeErrorMsg source_name e)]
  | .ok source_point =>
    if w.features.isEmpty then
      [.errorShown (noServicesMsg etype.label)]
    else
      let sc := extractServices etype.label w.features
      let distances := sc.1.map (fun c => w.geodesicMeters source_point c)
      match pyMin distances with
      | none => [.exceptionRaised ("ValueError: min arg is an empty sequence")]
      | some m =>
        let min_idx := pyIndexOf m distances
        let nearest_coord := sc.1.getD min_idx (0, 0)
        let nearest_name := sc.2.getD min_idx PdValue.pdNaN
        let ors := get_ors_route_coords source_point nearest_coord
          env.ors_api_key w.directions
        [.successShown (foundNearestMsg (pdFormat nearest_name))] ++ ors.1 ++
        (if ors.2.1.isEmpty then []
         else
           [.mapRendered source_point source_point nearest_coord
              (pdFormat nearest_name) ors.2.1,
            .routeInfoShown (pdFormat nearest_name)
              (ors.2.2.1.getD 0) (ors.2.2.2.getD 0)] ++
           make_emergency_call env w.twilioCreate)

/-! ### Helper lemmas -/

theorem foldl_min_le_init (xs : List ℚ) (a : ℚ) : xs.foldl min a ≤ a := by
  induction xs generalizing a with
  | nil => exact le_refl a
  | cons y ys ih => exact le_trans (ih (min a y)) (min_le_left a y)

theorem foldl_min_le_mem (xs : List ℚ) (a x : ℚ) (hx : x ∈ xs) :
    xs.foldl min a ≤ x := by
  induction xs generalizing a with
  | nil => cases hx
  | cons y ys ih =>
      rcases List.mem_cons.mp hx with h | h
      · subst h
        exact le_trans (foldl_min_le_init ys (min a x)) (min_le_right a x)
      · exact ih (min a y) h

theorem foldl_min_mem (xs : List ℚ) (a : ℚ) :
    xs.foldl min a = a ∨ xs.foldl min a ∈ xs := by
  induction xs generalizing a with
  | nil => exact Or.inl rfl
  | cons y ys ih =>
      rcases ih (min a y) with h | h
      · rcases min_choice a y with h2 | h2
        · exact Or.inl (by rw [List.foldl_cons, h, h2])
        · exact Or.inr (by rw [List.foldl_cons, h, h2]; exact List.mem_cons_self y ys)
      · exact Or.inr (List.mem_cons_of_mem y h)

theorem pyMin_le (l : List ℚ) (m : ℚ) (h : pyMin l = some m) :
    ∀ x ∈ l, m ≤ x := by
  cases l with
  | nil => cases h
  | cons y ys =>
      intro x hx
      have hm : m = ys.foldl min y := by
        simpa [pyMin] using h.symm
      subst hm
      rcases List.mem_cons.mp hx with h2 | h2
      · subst h2; exact foldl_min_le_init ys x
      · exact foldl_min_le_mem ys y x h2

theorem pyMin_mem (l : List ℚ) (m : ℚ) (h : pyMin l = some m) : m ∈ l := by
  cases l with
  | nil => cases h
  | cons y ys =>
      have hm : m = ys.foldl min y := by
        simpa [pyMin] using h.symm
      subst hm
      rcases foldl_min_mem ys y with h2 | h2
      · rw [h2]; exact List.mem_cons_self y ys
      · exact List.mem_cons_of_mem y h2

theorem pyMin_eq_none_iff (l : List ℚ) : pyMin l = none ↔ l = [] := by
  cases l with
  | nil => simp [pyMin]
  | cons y ys => simp [pyMin]

theorem pyIndexOf_lt_length (x : ℚ) (l : List ℚ) (h : x ∈ l) :
    pyIndexOf x l < l.length := by
  induction l with
  | nil => cases h
  | cons y ys ih =>
      by_cases hxy : y = x
      · simp [pyIndexOf, hxy]
      · have hx : x ∈ ys := by
          rcases List.mem_cons.mp h with h2 | h2
          · exact absurd h2.symm hxy
          · exact h2
        simpa [pyIndexOf, hxy] using ih hx

theorem getD_pyIndexOf (x : ℚ) (l : List ℚ) (d : ℚ) (h : x ∈ l) :
    l.getD (pyIndexOf x l) d = x := by
  induction l with
  | nil => cases h
  | cons y ys ih =>
      by_cases hxy : y = x
      · simp [pyIndexOf, hxy]
      · have hx : x ∈ ys := by
          rcases List.mem_cons.mp h with h2 | h2
          · exact absurd h2.symm hxy
          · exact h2
        simpa [pyIndexOf, hxy] using ih hx

theorem getD_before_pyIndexOf (x : ℚ) (l : List ℚ) (d : ℚ) (j : Nat)
    (hj : j < pyIndexOf x l) : l.getD j d ≠ x := by
  induction l generalizing j with
  | nil => simp [pyIndexOf] at hj
  | cons y ys ih =>
      by_cases hxy : y = x
      · simp [pyIndexOf, hxy] at hj
      · cases j with
        | zero => simpa using hxy
        | succ k =>
            have hk : k < pyIndexOf x ys := by
              have := hj
              simp [pyIndexOf, hxy] at this
              omega
            simpa using ih k hk

theorem extract_foldl_eq (b : Bool) (category : String) (rows : List Row) :
    ∀ acc : List Coord × List PdValue,
      rows.foldl (extractStep b category) acc =
        (acc.1 ++ (rows.filterMap (repCandidate b category)).map Prod.fst,
         acc.2 ++ (rows.filterMap (repCandidate b category)).map Prod.snd) := by
  induction rows with
  | nil => intro acc; simp
  | cons r rows ih =>
      intro acc
      rw [List.foldl_cons, ih]
      cases hg : r.geometry <;>
        simp [extractStep, repCandidate, Geometry.repPoint, hg,
          List.filterMap_cons]

theorem extractServices_eq (category : String) (rows : List Row) :
    extractServices category rows =
      ((rows.filterMap (repCandidate (hasNameColumn rows) category)).map
        Prod.fst,
       (rows.filterMap (repCandidate (hasNameColumn rows) category)).map
        Prod.snd) := by
  simpa [extractServices] using
    extract_foldl_eq (hasNameColumn rows) category rows ([], [])

theorem fm_geocode_error (s : String) (etype : EmergencyType) (env : Env)
    (w : World) (e : String) (hg : w.geocode = Except.error e) :
    find_and_map_route s etype env w =
      [Ev.errorShown (geocodeErrorMsg s e)] := by
  simp [find_and_map_route, hg]

theorem fm_no_services (s : String) (etype : EmergencyType) (env : Env)
    (w : World) (p : Coord) (hg : w.geocode = Except.ok p)
    (hf : w.features.isEmpty = true) :
    find_and_map_route s etype env w =
      [Ev.errorShown (noServicesMsg etype.label)] := by
  simp [find_and_map_route, hg, hf]

theorem fm_exception (s : String) (etype : EmergencyType) (env : Env)
    (w : World) (p : Coord) (hg : w.geocode = Except.ok p)
    (hf : w.features.isEmpty = false)
    (hm : pyMin ((extractServices etype.label w.features).1.map
            (fun c => w.geodesicMeters p c)) = none) :
    find_and_map_route s etype env w =
      [Ev.exceptionRaised ("ValueError: min arg is an empty sequence")] := by
  simp [find_and_map_route, hg, hf, hm]

theorem fm_run_eq (s : String) (etype : EmergencyType) (env : Env)
    (w : World) (p : Coord) (m : ℚ)
    (hg : w.geocode = Except.ok p)
    (hf : w.features.isEmpty = false)
    (hm : pyMin ((extractServices etype.label w.features).1.map
            (fun c => w.geodesicMeters p c)) = some m) :
    find_and_map_route s etype env w =
      (let sc := extractServices etype.label w.features
       let distances := sc.1.map (fun c => w.geodesicMeters p c)
       let min_idx := pyIndexOf m distances
       let nearest_coord := sc.1.getD min_idx (0, 0)
       let nearest_name := sc.2.getD min_idx PdValue.pdNaN
       let ors := get_ors_route_coords p nearest_coord env.ors_api_key
         w.directions
       [Ev.successShown (foundNearestMsg (pdFormat nearest_name))] ++ ors.1 ++
       (if ors.2.1.isEmpty then []
        else
          [Ev.mapRendered p p nearest_coord (pdFormat nearest_name) ors.2.1,
           Ev.routeInfoShown (pdFormat nearest_name) (ors.2.2.1.getD 0)
             (ors.2.2.2.getD 0)] ++
          make_emergency_call env w.twilioCreate)) := by
  simp [find_and_map_route, hg, hf, hm]

theorem callsOf_mec (env : Env)
    (svc : CallRequest → Except String String) :
    callsOf (make_emergency_call env svc) =
      if credsOk env then [buildCallRequest env] else [] := by
  by_cases h : credsOk env
  · cases hs : svc (buildCallRequest env) <;>
      simp [make_emergency_call, h, hs, callsOf]
  · simp [make_emergency_call, h, callsOf]

theorem mec_no_render (env : Env)
    (svc : CallRequest → Except String String) :
    ∀ e ∈ make_emergency_call env svc, e.isRender = false := by
  by_cases h : credsOk env
  · cases hs : svc (buildCallRequest env) <;>
      simp [make_emergency_call, h, hs, Ev.isRender]
  · simp [make_emergency_call, h, Ev.isRender]

theorem ncbr_nil : noCallBeforeRender [] = true := rfl

theorem ncbr_cons_skip (e : Ev) (t : List Ev) (hr : e.isRender = false)
    (hc : e.isCall = false) :
    noCallBeforeRender (e :: t) = noCallBeforeRender t := by
  simp [noCallBeforeRender, List.takeWhile_cons, hr, hc]

theorem ncbr_cons_render (e : Ev) (t : List Ev) (hr : e.isRender = true) :
    noCallBeforeRender (e :: t) = true := by
  simp [noCallBeforeRender, List.takeWhile_cons, hr]

theorem trace_cases (s : String) (etype : EmergencyType) (env : Env)
    (w : World) :
    (∃ msg, find_and_map_route s etype env w = [Ev.errorShown msg]) ∨
    (∃ msg, find_and_map_route s etype env w = [Ev.exceptionRaised msg]) ∨
    (∃ nm msg, find_and_map_route s etype env w =
      [Ev.successShown (foundNearestMsg nm), Ev.errorShown msg]) ∨
    (∃ nm, find_and_map_route s etype env w =
      [Ev.successShown (foundNearestMsg nm)]) ∨
    (∃ nm p nc rc dur dist, find_and_map_route s etype env w =
      Ev.successShown (foundNearestMsg nm) ::
      Ev.mapRendered p p nc nm rc ::
      Ev.routeInfoShown nm dur dist ::
      make_emergency_call env w.twilioCreate) := by
  cases hg : w.geocode with
  | error e =>
      exact Or.inl ⟨geocodeErrorMsg s e, fm_geocode_error s etype env w e hg⟩
  | ok p =>
      cases hf : w.features.isEmpty with
      | true =>
          exact Or.inl ⟨noServicesMsg etype.label,
            fm_no_services s etype env w p hg hf⟩
      | false =>
          cases hm : pyMin ((extractServices etype.label w.features).1.map
              (fun c => w.geodesicMeters p c)) with
          | none =>
              exact Or.inr (Or.inl ⟨("ValueError: min arg is an empty sequence"),
                fm_exception s etype env w p hg hf hm⟩)
          | some m =>
              have heq := fm_run_eq s etype env w p m hg hf hm
              simp only at heq
              set sc := extractServices etype.label w.features with hsc
              set min_idx := pyIndexOf m (sc.1.map
                (fun c => w.geodesicMeters p c)) with hmi
              set nc := sc.1.getD min_idx (0, 0) with hnc
              set nm := pdFormat (sc.2.getD min_idx PdValue.pdNaN) with hnm
              by_cases hk : truthy env.ors_api_key
              · cases hd : w.directions [(p.2, p.1), (nc.2, nc.1)] with
                | error e =>
                    refine Or.inr (Or.inr (Or.inl
                      ⟨nm, orsExceptionMsg e, ?_⟩))
                    rw [heq]
                    simp [get_ors_route_coords, hk, hd]
                | ok route =>
                    cases hroute : route.coordinates with
                    | nil =>
                        refine Or.inr (Or.inr (Or.inr (Or.inl ⟨nm, ?_⟩)))
                        rw [heq]
                        simp [get_ors_route_coords, hk, hd, hroute]
                    | cons a as =>
                        refine Or.inr (Or.inr (Or.inr (Or.inr
                          ⟨nm, p, nc, (a :: as).map (fun q => (q.2, q.1)),
                           route.summary.duration, route.summary.distance,
                           ?_⟩)))
                        rw [heq]
                        simp [get_ors_route_coords, hk, hd, hroute]
              · refine Or.inr (Or.inr (Or.inl ⟨nm, orsKeyMissingMsg, ?_⟩))
                rw [heq]
                simp [get_ors_route_coords, hk]

theorem swap_headD (l : List (ℚ × ℚ)) :
    (l.map (fun q => (q.2, q.1))).headD (0, 0) =
      ((l.headD (0, 0)).2, (l.headD (0, 0)).1) := by
  cases l <;> rfl

theorem swap_getLastD (l : List (ℚ × ℚ)) : ∀ d : ℚ × ℚ,
    (l.map (fun q => (q.2, q.1))).getLastD (d.2, d.1) =
      ((l.getLastD d).2, (l.getLastD d).1) := by
  induction l with
  | nil => intro d; rfl
  | cons a as ih =>
      intro d
      rw [List.map_cons, List.getLastD_cons, List.getLastD_cons]
      exact ih a

theorem callsOf_trace_of_render (s : String) (etype : EmergencyType)
    (env : Env) (w : World)
    (h : ∃ e ∈ find_and_map_route s etype env w, e.isRender = true) :
    callsOf (find_and_map_route s etype env w) =
      if credsOk env then [buildCallRequest env] else [] := by
  rcases trace_cases s etype env w with
    ⟨msg, he⟩ | ⟨msg, he⟩ | ⟨nm, msg, he⟩ | ⟨nm, he⟩ |
    ⟨nm, p, nc, rc, dur, dist, he⟩ <;> rw [he] at h ⊢
  · simp [Ev.isRender] at h
  · simp [Ev.isRender] at h
  · simp [Ev.isRender] at h
  · simp [Ev.isRender] at h
  · simpa [callsOf, List.filterMap_cons] using
      callsOf_mec env w.twilioCreate

/-! ### Claim theorems -/

/-- C1: the nearest-service selection of `find_and_map_route` (Python
`min` over the distance list, then `index` of that minimum) always picks
a candidate whose distance to the origin is minimal, and when several
candidates are equidistant it picks the first-encountered one in
result-set order (every strictly earlier candidate is strictly
farther). -/
theorem claim_nearest_selection (d : Coord → ℚ) (coords : List Coord)
    (m : ℚ) (h : pyMin (coords.map d) = some m) :
    pyIndexOf m (coords.map d) < coords.length ∧
    (∀ j, j < coords.length →
      d (coords.getD (pyIndexOf m (coords.map d)) (0, 0)) ≤
        d (coords.getD j (0, 0))) ∧
    (∀ j, j < pyIndexOf m (coords.map d) →
      d (coords.getD (pyIndexOf m (coords.map d)) (0, 0)) <
        d (coords.getD j (0, 0))) := by
  have hmem : m ∈ coords.map d := pyMin_mem _ m h
  have hi : pyIndexOf m (coords.map d) < coords.length := by
    simpa using pyIndexOf_lt_length m (coords.map d) hmem
  have key : ∀ j, j < coords.length →
      (coords.map d).getD j 0 = d (coords.getD j (0, 0)) := by
    intro j hj
    rw [List.getD_eq_getElem _ _ (by simpa using hj),
        List.getD_eq_getElem _ _ hj, List.getElem_map]
  have memD : ∀ j, j < coords.length →
      (coords.map d).getD j 0 ∈ coords.map d := by
    intro j hj
    rw [List.getD_eq_getElem _ _ (by simpa using hj)]
    exact List.getElem_mem _
  have hdi : d (coords.getD (pyIndexOf m (coords.map d)) (0, 0)) = m := by
    rw [← key _ hi]
    exact getD_pyIndexOf m (coords.map d) 0 hmem
  refine ⟨hi, ?_, ?_⟩
  · intro j hj
    rw [hdi, ← key j hj]
    exact pyMin_le _ m h _ (memD j hj)
  · intro j hji
    have hj : j < coords.length := lt_trans hji hi
    have hne : (coords.map d).getD j 0 ≠ m :=
      getD_before_pyIndexOf m (coords.map d) 0 j hji
    have hle : m ≤ (coords.map d).getD j 0 :=
      pyMin_le _ m h _ (memD j hj)
    rw [hdi, ← key j hj]
    exact lt_of_le_of_ne hle (Ne.symm hne)

/-- C1 witness: two candidates at distances 2 and 1 followed by a tied
candidate at distance 1; index 1 is selected. -/
theorem claim_nearest_selection_witness :
    pyMin ([((2 : ℚ), (0 : ℚ)), (1, 0), (1, 5)].map
      (fun c : Coord => c.1)) = some 1 ∧
    (pyIndexOf 1 ([((2 : ℚ), (0 : ℚ)), (1, 0), (1, 5)].map
      (fun c : Coord => c.1)) < ([((2 : ℚ), (0 : ℚ)), (1, 0), (1, 5)] :
        List Coord).length ∧
    (∀ j, j < ([((2 : ℚ), (0 : ℚ)), (1, 0), (1, 5)] : List Coord).length →
      (fun c : Coord => c.1) (([((2 : ℚ), (0 : ℚ)), (1, 0), (1, 5)] :
        List Coord).getD (pyIndexOf 1 ([((2 : ℚ), (0 : ℚ)), (1, 0),
          (1, 5)].map (fun c : Coord => c.1))) (0, 0)) ≤
        (fun c : Coord => c.1) (([((2 : ℚ), (0 : ℚ)), (1, 0), (1, 5)] :
          List Coord).getD j (0, 0))) ∧
    (∀ j, j < pyIndexOf 1 ([((2 : ℚ), (0 : ℚ)), (1, 0), (1, 5)].map
        (fun c : Coord => c.1)) →
      (fun c : Coord => c.1) (([((2 : ℚ), (0 : ℚ)), (1, 0), (1, 5)] :
        List Coord).getD (pyIndexOf 1 ([((2 : ℚ), (0 : ℚ)), (1, 0),
          (1, 5)].map (fun c : Coord => c.1))) (0, 0)) <
        (fun c : Coord => c.1) (([((2 : ℚ), (0 : ℚ)), (1, 0), (1, 5)] :
          List Coord).getD j (0, 0)))) :=
  ⟨by decide,
   claim_nearest_selection (fun c : Coord => c.1)
     [((2 : ℚ), (0 : ℚ)), (1, 0), (1, 5)] 1 (by decide)⟩

/-- C2: when the feature query returns zero facilities, the pipeline
shows exactly the not-found error: no map is rendered, no call is
created, and no facility (not even a synthetic one) is announced. -/
theorem claim_empty_result_not_found (s : String) (etype : EmergencyType)
    (env : Env) (w : World) (p : Coord)
    (hg : w.geocode = Except.ok p) (hf : w.features = []) :
    find_and_map_route s etype env w =
      [Ev.errorShown (noServicesMsg etype.label)] ∧
    (∀ e ∈ find_and_map_route s etype env w,
      e.isRender = false ∧ e.isCall = false ∧
      ∀ nm, e ≠ Ev.successShown (foundNearestMsg nm)) := by
  have h1 := fm_no_services s etype env w p hg (by simp [hf])
  refine ⟨h1, ?_⟩
  rw [h1]
  intro e he
  simp only [List.mem_singleton] at he
  subst he
  refine ⟨rfl, rfl, fun nm hcon => ?_⟩
  cases hcon

/-- C2 witness: a world whose feature query is empty. -/
theorem claim_empty_result_not_found_witness :
    (World.mk (Except.ok (1, 2)) [] (fun _ c => c.1)
        (fun _ => Except.error ("down")) (fun _ => Except.ok ("SID"))).geocode
      = Except.ok (1, 2) ∧
    (World.mk (Except.ok (1, 2)) [] (fun _ c => c.1)
        (fun _ => Except.error ("down")) (fun _ => Except.ok ("SID"))).features
      = [] ∧
    find_and_map_route ("RV College") EmergencyType.Fire
        ⟨some ("sid"), some ("tok"), some ("from"), some ("rcp"), some ("k")⟩
        (World.mk (Except.ok (1, 2)) [] (fun _ c => c.1)
          (fun _ => Except.error ("down")) (fun _ => Except.ok ("SID"))) =
      [Ev.errorShown (noServicesMsg EmergencyType.Fire.label)] :=
  ⟨rfl, rfl,
   (claim_empty_result_not_found ("RV College") EmergencyType.Fire
     ⟨some ("sid"), some ("tok"), some ("from"), some ("rcp"), some ("k")⟩
     (World.mk (Except.ok (1, 2)) [] (fun _ c => c.1)
       (fun _ => Except.error ("down")) (fun _ => Except.ok ("SID")))
     (1, 2) rfl rfl).1⟩

/-- C3: on a successful routing response the returned polyline is the
upstream coordinate sequence with every pair swapped, so the output is
in (latitude, longitude) order whatever the native (longitude,
latitude) input order was. -/
theorem claim_coordinate_swap (start endp : Coord) (key : Option String)
    (directions : List (ℚ × ℚ) → Except String ORSRoute) (route : ORSRoute)
    (hk : truthy key = true)
    (hd : directions [(start.2, start.1), (endp.2, endp.1)] =
      Except.ok route) :
    (get_ors_route_coords start endp key directions).2.1 =
      route.coordinates.map (fun q => (q.2, q.1)) ∧
    ∀ i : Nat, ((get_ors_route_coords start endp key directions).2.1)[i]? =
      (route.coordinates[i]?).map (fun q => (q.2, q.1)) := by
  have h1 : (get_ors_route_coords start endp key directions).2.1 =
      route.coordinates.map (fun q => (q.2, q.1)) := by
    simp [get_ors_route_coords, hk, hd]
  exact ⟨h1, fun i => by rw [h1, List.getElem?_map]⟩

/-- C3 witness: the (lon, lat) fixture [(77, 12), (78, 13)] yields
exactly the swapped polyline [(12, 77), (13, 78)]. -/
theorem claim_coordinate_swap_witness :
    truthy (some ("k")) = true ∧
    (get_ors_route_coords ((12 : ℚ), (77 : ℚ)) (13, 78) (some ("k"))
      (fun _ => Except.ok ⟨[(77, 12), (78, 13)], ⟨60, 1000⟩⟩)).2.1 =
      [((12 : ℚ), (77 : ℚ)), (13, 78)] :=
  ⟨by decide,
   by
    have h := (claim_coordinate_swap ((12 : ℚ), (77 : ℚ)) (13, 78)
      (some ("k")) (fun _ => Except.ok ⟨[(77, 12), (78, 13)], ⟨60, 1000⟩⟩)
      ⟨[(77, 12), (78, 13)], ⟨60, 1000⟩⟩ (by decide) rfl).1
    simpa using h⟩

/-- C4: in every run the call-creation event can only occur after the
map-render event (no call before the first render), and a run whose
trace contains no render — in particular every run in which routing
fails — creates no call. -/
theorem claim_call_after_render (s : String) (etype : EmergencyType)
    (env : Env) (w : World) :
    noCallBeforeRender (find_and_map_route s etype env w) = true ∧
    ((∀ e ∈ find_and_map_route s etype env w, e.isRender = false) →
      callsOf (find_and_map_route s etype env w) = []) := by
  rcases trace_cases s etype env w with
    ⟨msg, he⟩ | ⟨msg, he⟩ | ⟨nm, msg, he⟩ | ⟨nm, he⟩ |
    ⟨nm, p, nc, rc, dur, dist, he⟩ <;> rw [he]
  · exact ⟨by simp [noCallBeforeRender, Ev.isRender, Ev.isCall],
      fun _ => by simp [callsOf]⟩
  · exact ⟨by simp [noCallBeforeRender, Ev.isRender, Ev.isCall],
      fun _ => by simp [callsOf]⟩
  · exact ⟨by simp [noCallBeforeRender, Ev.isRender, Ev.isCall],
      fun _ => by simp [callsOf]⟩
  · exact ⟨by simp [noCallBeforeRender, Ev.isRender, Ev.isCall],
      fun _ => by simp [callsOf]⟩
  · constructor
    · rw [ncbr_cons_skip (Ev.successShown (foundNearestMsg nm)) _ rfl rfl]
      exact ncbr_cons_render (Ev.mapRendered p p nc nm rc) _ rfl
    · intro hno
      exfalso
      have := hno (Ev.mapRendered p p nc nm rc) (by simp)
      simp [Ev.isRender] at this

/-- C4 witness: a run whose routing service throws renders nothing and
creates no call. -/
theorem claim_call_after_render_witness :
    (∀ e ∈ find_and_map_route ("RV College") EmergencyType.Medical
        ⟨some ("sid"), some ("tok"), some ("from"), some ("rcp"), some ("k")⟩
        (World.mk (Except.ok (1, 2)) [⟨Geometry.point 4 3, some ("A")⟩]
          (fun _ c => c.1) (fun _ => Except.error ("down"))
          (fun _ => Except.ok ("SID"))),
      e.isRender = false) ∧
    callsOf (find_and_map_route ("RV College") EmergencyType.Medical
        ⟨some ("sid"), some ("tok"), some ("from"), some ("rcp"), some ("k")⟩
        (World.mk (Except.ok (1, 2)) [⟨Geometry.point 4 3, some ("A")⟩]
          (fun _ c => c.1) (fun _ => Except.error ("down"))
          (fun _ => Except.ok ("SID")))) = [] :=
  ⟨by decide,
   (claim_call_after_render ("RV College") EmergencyType.Medical
     ⟨some ("sid"), some ("tok"), some ("from"), some ("rcp"), some ("k")⟩
     (World.mk (Except.ok (1, 2)) [⟨Geometry.point 4 3, some ("A")⟩]
       (fun _ c => c.1) (fun _ => Except.error ("down"))
       (fun _ => Except.ok ("SID")))).2 (by decide)⟩

/-- C5: when any one of the four Twilio credentials is absent,
`make_emergency_call` returns exactly one warning: it creates no call
request, shows no error, and (being a total function) raises nothing. -/
theorem claim_missing_credentials_skip (env : Env)
    (svc : CallRequest → Except String String)
    (h : env.twilio_account_sid = none ∨ env.twilio_auth_token = none ∨
      env.twilio_phone_number = none ∨
      env.verified_recipient_number = none) :
    make_emergency_call env svc = [Ev.warningShown twilioSkipMsg] ∧
    callsOf (make_emergency_call env svc) = [] ∧
    ∀ msg, Ev.errorShown msg ∉ make_emergency_call env svc := by
  have hcred : credsOk env = false := by
    rcases h with h | h | h | h <;> simp [credsOk, h, truthy]
  have h1 : make_emergency_call env svc = [Ev.warningShown twilioSkipMsg] := by
    simp [make_emergency_call, hcred]
  refine ⟨h1, ?_, ?_⟩
  · rw [h1]; simp [callsOf]
  · intro msg; rw [h1]; simp

/-- C5 witness: recipient number unset, everything else set. -/
theorem claim_missing_credentials_skip_witness :
    (Env.mk (some ("sid")) (some ("tok")) (some ("from")) none
        (some ("k"))).verified_recipient_number = none ∧
    make_emergency_call
        (Env.mk (some ("sid")) (some ("tok")) (some ("from")) none
          (some ("k")))
        (fun _ => Except.ok ("SID")) =
      [Ev.warningShown twilioSkipMsg] :=
  ⟨rfl,
   (claim_missing_credentials_skip
     (Env.mk (some ("sid")) (some ("tok")) (some ("from")) none
       (some ("k")))
     (fun _ => Except.ok ("SID"))
     (Or.inr (Or.inr (Or.inr rfl)))).1⟩

/-- C6: the router fails hard — with an error and the empty result,
hence no Route — both when the API key is absent and when the routing
service errors out (unreachable or no path between the points). -/
theorem claim_routing_error (start endp : Coord) (key : Option String)
    (directions : List (ℚ × ℚ) → Except String ORSRoute) :
    (key = none →
      get_ors_route_coords start endp key directions =
        ([Ev.errorShown orsKeyMissingMsg], ([], none, none))) ∧
    (∀ e, truthy key = true →
      directions [(start.2, start.1), (endp.2, endp.1)] =
        Except.error e →
      get_ors_route_coords start endp key directions =
        ([Ev.errorShown (orsExceptionMsg e)], ([], none, none))) := by
  constructor
  · intro hk
    subst hk
    simp [get_ors_route_coords, truthy]
  · intro e hk hd
    simp [get_ors_route_coords, hk, hd]

/-- C6 witness: a missing key errors out even though the service itself
would have answered. -/
theorem claim_routing_error_witness :
    ((none : Option String) = none ∧
      get_ors_route_coords ((1 : ℚ), (2 : ℚ)) (3, 4) none
        (fun _ => Except.ok ⟨[(2, 1), (4, 3)], ⟨60, 1000⟩⟩) =
        ([Ev.errorShown orsKeyMissingMsg], ([], none, none))) ∧
    (truthy (some ("k")) = true ∧
      (fun _ : List (ℚ × ℚ) =>
        (Except.error ("unreachable") : Except String ORSRoute))
        [(((1 : ℚ), (2 : ℚ)).2, ((1 : ℚ), (2 : ℚ)).1),
         ((((3 : ℚ), (4 : ℚ))).2, (((3 : ℚ), (4 : ℚ))).1)] =
        Except.error ("unreachable") ∧
      get_ors_route_coords ((1 : ℚ), (2 : ℚ)) (3, 4) (some ("k"))
        (fun _ => Except.error ("unreachable")) =
        ([Ev.errorShown (orsExceptionMsg ("unreachable"))],
         ([], none, none))) :=
  ⟨⟨rfl,
    (claim_routing_error ((1 : ℚ), (2 : ℚ)) (3, 4) none
      (fun _ => Except.ok ⟨[(2, 1), (4, 3)], ⟨60, 1000⟩⟩)).1 rfl⟩,
   ⟨by decide, rfl,
    (claim_routing_error ((1 : ℚ), (2 : ℚ)) (3, 4) (some ("k"))
      (fun _ => Except.error ("unreachable"))).2 ("unreachable")
      (by decide) rfl⟩⟩

/-- C7: the extraction loop produces exactly the candidates of the
representative-point rule: a point geometry contributes its own
coordinates, a polygon or multi-polygon contributes its centroid, and
any other geometry type contributes nothing. -/
theorem claim_representative_points (category : String) (rows : List Row) :
    extractServices category rows =
      (rows.filterMap (fun r => r.geometry.repPoint),
       rows.filterMap (fun r =>
         (r.geometry.repPoint).map
           (fun _ => rowGetName (hasNameColumn rows) category r))) := by
  rw [extractServices_eq]
  have h1 : (rows.filterMap
        (repCandidate (hasNameColumn rows) category)).map Prod.fst =
      rows.filterMap (fun r => r.geometry.repPoint) := by
    rw [List.map_filterMap]
    congr 1
    funext r
    cases hr : r.geometry.repPoint <;> simp [repCandidate, hr]
  have h2 : (rows.filterMap
        (repCandidate (hasNameColumn rows) category)).map Prod.snd =
      rows.filterMap (fun r =>
        (r.geometry.repPoint).map
          (fun _ => rowGetName (hasNameColumn rows) category r)) := by
    rw [List.map_filterMap]
    congr 1
    funext r
    cases hr : r.geometry.repPoint <;> simp [repCandidate, hr]
  rw [h1, h2]

/-- C8: if the routing service honours its own precision bound — its
native-order polyline starts within eps of the requested start
(longitude, latitude) pair and ends within eps of the requested
destination pair — then the returned (latitude, longitude) polyline
starts within eps of the query origin and ends within eps of the
selected destination. -/
theorem claim_route_endpoints (start endp : Coord) (key : Option String)
    (directions : List (ℚ × ℚ) → Except String ORSRoute)
    (route : ORSRoute) (eps : ℚ)
    (hk : truthy key = true)
    (hd : directions [(start.2, start.1), (endp.2, endp.1)] =
      Except.ok route)
    (hne : route.coordinates ≠ [])
    (hf1 : |(route.coordinates.headD (0, 0)).1 - start.2| ≤ eps)
    (hf2 : |(route.coordinates.headD (0, 0)).2 - start.1| ≤ eps)
    (hl1 : |(route.coordinates.getLastD (0, 0)).1 - endp.2| ≤ eps)
    (hl2 : |(route.coordinates.getLastD (0, 0)).2 - endp.1| ≤ eps) :
    (get_ors_route_coords start endp key directions).2.1 ≠ [] ∧
    |(((get_ors_route_coords start endp key directions).2.1.headD
        (0, 0)).1 - start.1)| ≤ eps ∧
    |(((get_ors_route_coords start endp key directions).2.1.headD
        (0, 0)).2 - start.2)| ≤ eps ∧
    |(((get_ors_route_coords start endp key directions).2.1.getLastD
        (0, 0)).1 - endp.1)| ≤ eps ∧
    |(((get_ors_route_coords start endp key directions).2.1.getLastD
        (0, 0)).2 - endp.2)| ≤ eps := by
  have h1 : (get_ors_route_coords start endp key directions).2.1 =
      route.coordinates.map (fun q => (q.2, q.1)) := by
    simp [get_ors_route_coords, hk, hd]
  rw [h1]
  have hh := swap_headD route.coordinates
  have hl := swap_getLastD route.coordinates (0, 0)
  refine ⟨by simp [hne], ?_, ?_, ?_, ?_⟩
  · rw [hh]; exact hf2
  · rw [hh]; exact hf1
  · rw [hl]; exact hl2
  · rw [hl]; exact hl1

/-- C8 witness: a service answering exactly at the requested endpoints,
with eps zero. -/
theorem claim_route_endpoints_witness :
    truthy (some ("k")) = true ∧
    ((fun _ : List (ℚ × ℚ) =>
        (Except.ok (⟨[(2, 1), (7, 9), (4, 3)], ⟨60, 1000⟩⟩ : ORSRoute) :
          Except String ORSRoute))
      [(((1 : ℚ), (2 : ℚ)).2, ((1 : ℚ), (2 : ℚ)).1),
       ((((3 : ℚ), (4 : ℚ))).2, (((3 : ℚ), (4 : ℚ))).1)] =
      Except.ok ⟨[(2, 1), (7, 9), (4, 3)], ⟨60, 1000⟩⟩) ∧
    (get_ors_route_coords ((1 : ℚ), (2 : ℚ)) (3, 4) (some ("k"))
      (fun _ => Except.ok ⟨[(2, 1), (7, 9), (4, 3)], ⟨60, 1000⟩⟩)).2.1 ≠ [] ∧
    |(((get_ors_route_coords ((1 : ℚ), (2 : ℚ)) (3, 4) (some ("k"))
        (fun _ => Except.ok ⟨[(2, 1), (7, 9), (4, 3)], ⟨60, 1000⟩⟩)).2.1.headD
        (0, 0)).1 - ((1 : ℚ), (2 : ℚ)).1)| ≤ (0 : ℚ) ∧
    |(((get_ors_route_coords ((1 : ℚ), (2 : ℚ)) (3, 4) (some ("k"))
        (fun _ => Except.ok ⟨[(2, 1), (7, 9), (4, 3)], ⟨60, 1000⟩⟩)).2.1.headD
        (0, 0)).2 - ((1 : ℚ), (2 : ℚ)).2)| ≤ (0 : ℚ) ∧
    |(((get_ors_route_coords ((1 : ℚ), (2 : ℚ)) (3, 4) (some ("k"))
        (fun _ => Except.ok ⟨[(2, 1), (7, 9), (4, 3)],
          ⟨60, 1000⟩⟩)).2.1.getLastD (0, 0)).1 -
        (((3 : ℚ), (4 : ℚ))).1)| ≤ (0 : ℚ) ∧
    |(((get_ors_route_coords ((1 : ℚ), (2 : ℚ)) (3, 4) (some ("k"))
        (fun _ => Except.ok ⟨[(2, 1), (7, 9), (4, 3)],
          ⟨60, 1000⟩⟩)).2.1.getLastD (0, 0)).2 -
        (((3 : ℚ), (4 : ℚ))).2)| ≤ (0 : ℚ) :=
  ⟨by decide, rfl,
   claim_route_endpoints ((1 : ℚ), (2 : ℚ)) (3, 4) (some ("k"))
     (fun _ => Except.ok ⟨[(2, 1), (7, 9), (4, 3)], ⟨60, 1000⟩⟩)
     ⟨[(2, 1), (7, 9), (4, 3)], ⟨60, 1000⟩⟩ 0 (by decide) rfl
     (by decide) (by simp) (by simp) (by simp) (by simp)⟩

/-- C9 (code bug): at the failing input — a Medical result set holding
a facility named "A" and a nameless facility — pandas returns the
stored NaN for the nameless facility because the name column exists, so
extraction labels it NaN (rendered "nan"), never the synthesized
"Unnamed Medical" the claim (and the default written on line 109)
promises; the default fires only when no facility of the whole result
set has a name. -/
theorem claim_unnamed_label_bug :
    (extractServices ("Medical")
      [(⟨Geometry.point 4 3, some ("A")⟩ : Row),
       ⟨Geometry.point 6 5, none⟩]).2 =
      [PdValue.pdStr ("A"), PdValue.pdNaN] ∧
    PdValue.pdStr ("Unnamed " ++ "Medical") ∉
      (extractServices ("Medical")
        [(⟨Geometry.point 4 3, some ("A")⟩ : Row),
         ⟨Geometry.point 6 5, none⟩]).2 ∧
    pdFormat ((extractServices ("Medical")
      [(⟨Geometry.point 4 3, some ("A")⟩ : Row),
       ⟨Geometry.point 6 5, none⟩]).2.getD 1 PdValue.pdNaN) = "nan" ∧
    (extractServices ("Medical") [(⟨Geometry.point 6 5, none⟩ : Row)]).2 =
      [PdValue.pdStr ("Unnamed Medical")] := by
  decide

/-- C10: the dispatched call content is a function of the environment
only: every created call request equals `buildCallRequest env`, and any
two runs under the same environment that reach the alerting stage
(their traces contain a render) create identical call lists, whatever
the query or the external-service responses were. -/
theorem claim_call_noninterference (env : Env) (s1 s2 : String)
    (e1 e2 : EmergencyType) (w1 w2 : World)
    (h1 : ∃ e ∈ find_and_map_route s1 e1 env w1, e.isRender = true)
    (h2 : ∃ e ∈ find_and_map_route s2 e2 env w2, e.isRender = true) :
    callsOf (find_and_map_route s1 e1 env w1) =
      callsOf (find_and_map_route s2 e2 env w2) ∧
    ∀ req ∈ callsOf (find_and_map_route s1 e1 env w1),
      req = buildCallRequest env := by
  have k1 := callsOf_trace_of_render s1 e1 env w1 h1
  have k2 := callsOf_trace_of_render s2 e2 env w2 h2
  refine ⟨by rw [k1, k2], ?_⟩
  intro req hreq
  rw [k1] at hreq
  by_cases hc : credsOk env
  · simpa [hc] using hreq
  · simp [hc] at hreq

/-- C10 witness: two runs with different queries, different worlds and
the same environment dispatch the same single call. -/
theorem claim_call_noninterference_witness :
    (∃ e ∈ find_and_map_route ("RV College") EmergencyType.Medical
        ⟨some ("sid"), some ("tok"), some ("from"), some ("rcp"), some ("k")⟩
        (World.mk (Except.ok (1, 2)) [⟨Geometry.point 4 3, some ("A")⟩]
          (fun _ c => c.1)
          (fun _ => Except.ok ⟨[(2, 1), (4, 3)], ⟨60, 1000⟩⟩)
          (fun _ => Except.ok ("SID"))),
      e.isRender = true) ∧
    (∃ e ∈ find_and_map_route ("Jayanagar") EmergencyType.Police
        ⟨some ("sid"), some ("tok"), some ("from"), some ("rcp"), some ("k")⟩
        (World.mk (Except.ok (7, 8)) [⟨Geometry.point 9 9, none⟩]
          (fun _ c => c.2)
          (fun _ => Except.ok ⟨[(8, 7), (9, 9)], ⟨120, 2000⟩⟩)
          (fun _ => Except.error ("busy"))),
      e.isRender = true) ∧
    callsOf (find_and_map_route ("RV College") EmergencyType.Medical
        ⟨some ("sid"), some ("tok"), some ("from"), some ("rcp"), some ("k")⟩
        (World.mk (Except.ok (1, 2)) [⟨Geometry.point 4 3, some ("A")⟩]
          (fun _ c => c.1)
          (fun _ => Except.ok ⟨[(2, 1), (4, 3)], ⟨60, 1000⟩⟩)
          (fun _ => Except.ok ("SID")))) =
      callsOf (find_and_map_route ("Jayanagar") EmergencyType.Police
        ⟨some ("sid"), some ("tok"), some ("from"), some ("rcp"), some ("k")⟩
        (World.mk (Except.ok (7, 8)) [⟨Geometry.point 9 9, none⟩]
          (fun _ c => c.2)
          (fun _ => Except.ok ⟨[(8, 7), (9, 9)], ⟨120, 2000⟩⟩)
          (fun _ => Except.error ("busy")))) :=
  ⟨by decide, by decide,
   (claim_call_noninterference
     ⟨some ("sid"), some ("tok"), some ("from"), some ("rcp"), some ("k")⟩
     ("RV College") ("Jayanagar") EmergencyType.Medical EmergencyType.Police
     (World.mk (Except.ok (1, 2)) [⟨Geometry.point 4 3, some ("A")⟩]
       (fun _ c => c.1)
       (fun _ => Except.ok ⟨[(2, 1), (4, 3)], ⟨60, 1000⟩⟩)
       (fun _ => Except.ok ("SID")))
     (World.mk (Except.ok (7, 8)) [⟨Geometry.point 9 9, none⟩]
       (fun _ c => c.2)
       (fun _ => Except.ok ⟨[(8, 7), (9, 9)], ⟨120, 2000⟩⟩)
       (fun _ => Except.error ("busy")))
     (by decide) (by decide)).1⟩

end DCN
